import Mathlib

/-!
Shallow embedding of the beemeteo weather-data pipeline.

The embedding covers the two source modules that carry the interesting
behaviour:

* `src/beemeteo/sources/era5/utils.py` — the unit/schema normalizer
  (`transformation_pipe`), the numpy-style `shift` helper and the GRIB
  index-file handling of `query_from_grib`;
* `src/beemeteo/sources/meteogalicia/__init__.py` — the historical gap
  fetch (`_get_historical_data_source`), the per-day resolution fallback
  (`_get_historic_data_day`), the forecast collector (`_collect_forecasting`)
  and the raster aggregation (`_collect_raster`).

Modelling conventions: epoch timestamps are `Int` (seconds), data values of
the meteogalicia CSV/netcdf tables are `ℚ`, data values of the ERA5 grib
tables are `ℝ` (the normalizer applies `sqrt`, `exp` and `arctan2`), and a
missing value (NaN) is `Option.none`.  Timezone-aware datetime arithmetic is
modelled for a fixed-offset timezone `off` (seconds east of UTC).  Sorting
(`pandas.sort_values`, sorted groupby keys, Python `sorted`) is modelled by
insertion sort.
-/

/-- numpy-style shift of `era5/utils.py::shift`: for `0 < num` the first
`num` slots receive `fill_value` and slot `i ≥ num` receives `arr[i - num]`;
symmetrically for `num < 0`; the identity for `num = 0`. -/
def shift {α : Type} (arr : List α) (num : Int) (fill : α) : List α :=
  if 0 < num then
    List.replicate (min num.toNat arr.length) fill ++ arr.take (arr.length - num.toNat)
  else if num < 0 then
    arr.drop (-num).toNat ++ List.replicate (min (-num).toNat arr.length) fill
  else arr

theorem shift_length {α : Type} (arr : List α) (num : Int) (fill : α) :
    (shift arr num fill).length = arr.length := by
  unfold shift
  split
  · simp only [List.length_append, List.length_replicate, List.length_take]
    omega
  · split
    · simp only [List.length_append, List.length_replicate, List.length_drop]
      omega
    · rfl

theorem shift_getElem?_lt {α : Type} (arr : List α) (num : Int) (fill : α)
    (hnum : 0 < num) (i : ℕ) (hi : i < arr.length) (hilt : i < num.toNat) :
    (shift arr num fill)[i]? = some fill := by
  unfold shift
  rw [if_pos hnum, List.getElem?_append]
  rw [if_pos (by simp only [List.length_replicate]; omega)]
  rw [List.getElem?_replicate, if_pos (by omega)]

theorem shift_getElem?_ge {α : Type} (arr : List α) (num : Int) (fill : α)
    (hnum : 0 < num) (i : ℕ) (hi : i < arr.length) (hige : num.toNat ≤ i) :
    (shift arr num fill)[i]? = arr[i - num.toNat]? := by
  unfold shift
  rw [if_pos hnum, List.getElem?_append]
  have hmin : min num.toNat arr.length = num.toNat := by omega
  simp only [List.length_replicate, hmin]
  rw [if_neg (by omega), List.getElem?_take, if_pos (by omega)]

/-- Insert `a` into `l` before the first element it is `le`-below-or-equal. -/
def insertLe {α : Type} (le : α → α → Bool) (a : α) : List α → List α
  | [] => [a]
  | b :: bs => if le a b then a :: b :: bs else b :: insertLe le a bs

/-- Insertion sort; models the sorting steps of the pipeline
(`pandas.sort_values`, sorted groupby keys, Python `sorted`). -/
def sortBy {α : Type} (le : α → α → Bool) : List α → List α
  | [] => []
  | a :: as => insertLe le a (sortBy le as)

theorem insertLe_perm {α : Type} (le : α → α → Bool) (a : α) (l : List α) :
    (insertLe le a l).Perm (a :: l) := by
  induction l with
  | nil => exact List.Perm.refl _
  | cons b bs ih =>
    unfold insertLe
    split
    · exact List.Perm.refl _
    · exact (ih.cons b).trans (List.Perm.swap a b bs)

theorem sortBy_perm {α : Type} (le : α → α → Bool) (l : List α) :
    (sortBy le l).Perm l := by
  induction l with
  | nil => exact List.Perm.refl _
  | cons a as ih => exact (insertLe_perm le a (sortBy le as)).trans (ih.cons a)

theorem mem_insertLe {α : Type} (le : α → α → Bool) (a x : α) (l : List α) :
    x ∈ insertLe le a l ↔ x = a ∨ x ∈ l := by
  rw [(insertLe_perm le a l).mem_iff, List.mem_cons]

theorem pairwise_insertLe {α : Type} (le : α → α → Bool)
    (htrans : ∀ x y z, le x y = true → le y z = true → le x z = true)
    (htotal : ∀ x y, (le x y || le y x) = true) (a : α) (l : List α)
    (h : l.Pairwise fun x y => le x y = true) :
    (insertLe le a l).Pairwise fun x y => le x y = true := by
  induction l with
  | nil => simp [insertLe]
  | cons b bs ih =>
    rw [List.pairwise_cons] at h
    obtain ⟨hb, hbs⟩ := h
    unfold insertLe
    by_cases hab : le a b = true
    · rw [if_pos hab]
      refine List.Pairwise.cons ?_ (List.Pairwise.cons hb hbs)
      intro c hc
      rcases List.mem_cons.mp hc with rfl | hc
      · exact hab
      · exact htrans _ _ _ hab (hb c hc)
    · rw [if_neg hab]
      refine List.Pairwise.cons ?_ (ih hbs)
      intro c hc
      rcases (mem_insertLe le a c bs).mp hc with h2 | hc
      · rw [h2]
        have h1 := htotal a b
        rw [Bool.or_eq_true] at h1
        rcases h1 with h1 | h1
        · exact absurd h1 hab
        · exact h1
      · exact hb c hc

theorem sortBy_pairwise {α : Type} (le : α → α → Bool)
    (htrans : ∀ x y z, le x y = true → le y z = true → le x z = true)
    (htotal : ∀ x y, (le x y || le y x) = true) (l : List α) :
    (sortBy le l).Pairwise fun x y => le x y = true := by
  induction l with
  | nil => simp [sortBy]
  | cons a as ih => exact pairwise_insertLe le htrans htotal a _ ih

/-- Worker of `dedupKeepFirst`: keep a row if its key has not been seen. -/
def dedupGo {α κ : Type} [DecidableEq κ] (key : α → κ) : List α → List κ → List α
  | [], _ => []
  | a :: as, seen =>
    if key a ∈ seen then dedupGo key as seen
    else a :: dedupGo key as (key a :: seen)

/-- `pandas.DataFrame.drop_duplicates(subset=key, keep="first")`: keep the
first row of every `key` class, in order. -/
def dedupKeepFirst {α κ : Type} [DecidableEq κ] (key : α → κ) (l : List α) : List α :=
  dedupGo key l []

theorem dedupGo_sublist {α κ : Type} [DecidableEq κ] (key : α → κ) :
    ∀ (l : List α) (seen : List κ), (dedupGo key l seen).Sublist l := by
  intro l
  induction l with
  | nil => intro seen; simp [dedupGo]
  | cons a as ih =>
    intro seen
    unfold dedupGo
    split
    · exact (ih seen).cons a
    · exact (ih (key a :: seen)).cons₂ a

theorem dedupGo_spec {α κ : Type} [DecidableEq κ] (key : α → κ) :
    ∀ (l : List α) (seen : List κ),
      (dedupGo key l seen).Pairwise (fun x y => key x ≠ key y) ∧
      ∀ x ∈ dedupGo key l seen, key x ∉ seen := by
  intro l
  induction l with
  | nil => intro seen; simp [dedupGo]
  | cons a as ih =>
    intro seen
    unfold dedupGo
    split
    · exact ⟨(ih seen).1, (ih seen).2⟩
    · rename_i hseen
      obtain ⟨hpw, hnot⟩ := ih (key a :: seen)
      refine ⟨List.Pairwise.cons ?_ hpw, ?_⟩
      · intro b hb heq
        exact hnot b hb (heq ▸ List.mem_cons_self _ _)
      · intro x hx
        rcases List.mem_cons.mp hx with rfl | hx
        · exact hseen
        · exact fun hmem => hnot x hx (List.mem_cons_of_mem _ hmem)

theorem dedupKeepFirst_sublist {α κ : Type} [DecidableEq κ] (key : α → κ)
    (l : List α) : (dedupKeepFirst key l).Sublist l :=
  dedupGo_sublist key l []

theorem dedupKeepFirst_subset {α κ : Type} [DecidableEq κ] (key : α → κ)
    (l : List α) {x : α} (hx : x ∈ dedupKeepFirst key l) : x ∈ l :=
  (dedupKeepFirst_sublist key l).subset hx

theorem dedupKeepFirst_pairwise {α κ : Type} [DecidableEq κ] (key : α → κ)
    (l : List α) : (dedupKeepFirst key l).Pairwise fun x y => key x ≠ key y :=
  (dedupGo_spec key l []).1

theorem mem_foldl_append {α β : Type} (f : β → List α) (gs : List β) (init : List α) (x : α) :
    x ∈ gs.foldl (fun acc g => acc ++ f g) init ↔ x ∈ init ∨ ∃ g ∈ gs, x ∈ f g := by
  induction gs generalizing init with
  | nil => simp
  | cons g gs ih =>
    simp only [List.foldl_cons, ih, List.mem_append, List.mem_cons]
    constructor
    · rintro (⟨h | h⟩ | ⟨g2, hg2, hx⟩)
      · exact Or.inl h
      · exact Or.inr ⟨g, Or.inl rfl, h⟩
      · exact Or.inr ⟨g2, Or.inr hg2, hx⟩
    · rintro (h | ⟨g2, (rfl | hg2), hx⟩)
      · exact Or.inl (Or.inl h)
      · exact Or.inl (Or.inr hx)
      · exact Or.inr ⟨g2, hg2, hx⟩

namespace MeteoGalicia

/-- One row of the per-day answer of `_get_historic_data_day` after renaming
and timezone conversion: epoch-second timestamp `ts` and solar radiation
`GHI` (the only two columns the function keeps). -/
structure DayRow where
  ts : Int
  GHI : ℚ
deriving DecidableEq

/-- Midnight (00:00) of the local calendar day containing epoch second `t`
for a fixed-offset timezone `off` (seconds east of UTC); models
`local_tz.localize(datetime.datetime.combine(x.date(), datetime.datetime.min.time()))`. -/
def floorDayLocal (off t : Int) : Int := 86400 * ((t + off).fdiv 86400) - off

/-- Epoch second of 01:00 UTC on the local calendar day of `t`; models
`pytz.UTC.localize(datetime.datetime.combine(ts_ini.date(), datetime.time(1)))`. -/
def meteogaliciaStart (off t : Int) : Int := 86400 * ((t + off).fdiv 86400) + 3600

/-- `pd.date_range(a, b, freq="1d")` on epoch seconds in a fixed-offset
timezone: `a, a + 86400, …` up to `b`. -/
def dateRange1d (a b : Int) : List Int :=
  if b < a then [] else (List.range ((b - a).toNat / 86400 + 1)).map fun i => a + 86400 * (i : Int)

/-- The body of the per-gap loop of `_get_historical_data_source`: snap the
gap ends to local midnight, start one day earlier when meteogalicia's 01:00
UTC day start lies after local midnight, download each day, sort by `ts` and
filter to `[ts_ini, ts_end + 23h]`.  `fetchDay` stands for
`_get_historic_data_day` (one call per day). -/
def gapPeriod (fetchDay : Int → List DayRow) (off : Int) (g : Int × Int) : List DayRow :=
  let tsIni := floorDayLocal off g.1
  let tsEnd := floorDayLocal off g.2
  let tsIniLoop := if tsIni < meteogaliciaStart off tsIni then tsIni - 86400 else tsIni
  let dataPeriod := (dateRange1d tsIniLoop tsEnd).foldl (fun acc d => acc ++ fetchDay d) []
  (sortBy (fun a b => decide (a.ts ≤ b.ts)) dataPeriod).filter fun r =>
    decide (tsIni ≤ r.ts) && decide (r.ts ≤ tsEnd + 23 * 3600)

/-- A row of the table returned by `_get_historical_data_source` after the
constant `latitude`/`longitude` columns are assigned. -/
structure OutRow where
  latitude : ℚ
  longitude : ℚ
  ts : Int
  GHI : ℚ
deriving DecidableEq

/-- `MeteoGalicia._get_historical_data_source`: concatenate the per-gap
periods, sort everything by `ts`, assign the constant location columns and
drop duplicate `(latitude, longitude, ts)` keys keeping the first
occurrence. -/
def getHistoricalDataSource (fetchDay : Int → List DayRow) (off : Int)
    (latitude longitude : ℚ) (gaps : List (Int × Int)) : List OutRow :=
  let missing := gaps.foldl (fun acc g => acc ++ gapPeriod fetchDay off g) []
  let missing := sortBy (fun a b => decide (a.ts ≤ b.ts)) missing
  let rows := missing.map fun r => OutRow.mk latitude longitude r.ts r.GHI
  dedupKeepFirst (fun r => (r.latitude, r.longitude, r.ts)) rows

/-- The key columns of the returned table. -/
def keyCols : List String := ["latitude", "longitude", "ts"]

/-- The column order emitted by `_get_historical_data_source`
(`set_index(key_cols)[sorted(other columns)].reset_index()`): the key columns
first, the remaining columns sorted. -/
def outputColumns (cols : List String) : List String :=
  keyCols ++ sortBy (fun a b => decide (a ≤ b)) (cols.filter fun c => !(keyCols.contains c))

theorem sortBy_ts_pairwise (l : List DayRow) :
    (sortBy (fun a b => decide (a.ts ≤ b.ts)) l).Pairwise fun a b => a.ts ≤ b.ts := by
  have h := sortBy_pairwise (fun a b : DayRow => decide (a.ts ≤ b.ts))
    (by intro x y z; simp only [decide_eq_true_eq]; omega)
    (by intro x y; simp only [Bool.or_eq_true, decide_eq_true_eq]; omega) l
  exact h.imp (by simp)

theorem sortBy_str_pairwise (l : List String) :
    (sortBy (fun a b => decide (a ≤ b)) l).Pairwise fun a b => a ≤ b := by
  have h := sortBy_pairwise (fun a b : String => decide (a ≤ b))
    (by intro x y z; simp only [decide_eq_true_eq]; exact le_trans)
    (by intro x y; simp only [Bool.or_eq_true, decide_eq_true_eq]; exact le_total x y) l
  exact h.imp (by simp)

/-- Claim C1: for every location, fixed-offset timezone and list of gaps, the
table returned by the historical gap fetch `_get_historical_data_source`
contains only rows whose timestamp lies inside the day-aligned bound of one
of the requested gaps (from local midnight of the gap start to 23:00 of the
local day of the gap end — the requested range expanded to whole local
calendar days), is sorted ascending by timestamp, has no two rows with the
same `(latitude, longitude, ts)` key, and emits the non-key columns in
sorted order after the key columns `latitude, longitude, ts`. -/
theorem getHistoricalDataSource_invariants
    (fetchDay : Int → List DayRow) (off : Int) (latitude longitude : ℚ)
    (gaps : List (Int × Int)) :
    (∀ r ∈ getHistoricalDataSource fetchDay off latitude longitude gaps,
       ∃ g ∈ gaps, floorDayLocal off g.1 ≤ r.ts ∧ r.ts ≤ floorDayLocal off g.2 + 23 * 3600) ∧
    (getHistoricalDataSource fetchDay off latitude longitude gaps).Pairwise
      (fun a b => a.ts ≤ b.ts) ∧
    (getHistoricalDataSource fetchDay off latitude longitude gaps).Pairwise
      (fun a b => (a.latitude, a.longitude, a.ts) ≠ (b.latitude, b.longitude, b.ts)) ∧
    ∀ cols : List String,
      (outputColumns cols).take 3 = keyCols ∧
      List.Sorted (fun a b => a ≤ b) ((outputColumns cols).drop 3) ∧
      ((outputColumns cols).drop 3).Perm (cols.filter fun c => !(keyCols.contains c)) := by
  refine ⟨?_, ?_, ?_, ?_⟩
  · intro r hr
    unfold getHistoricalDataSource at hr
    have hr2 := dedupKeepFirst_subset _ _ hr
    rw [List.mem_map] at hr2
    obtain ⟨m, hm, rfl⟩ := hr2
    rw [(sortBy_perm _ _).mem_iff, mem_foldl_append] at hm
    rcases hm with h | ⟨g, hg, hmg⟩
    · simp at h
    · refine ⟨g, hg, ?_⟩
      simp only [gapPeriod, List.mem_filter, Bool.and_eq_true, decide_eq_true_eq] at hmg
      exact ⟨hmg.2.1, hmg.2.2⟩
  · unfold getHistoricalDataSource
    apply List.Pairwise.sublist (dedupKeepFirst_sublist _ _)
    exact (sortBy_ts_pairwise _).map _ (fun a b h => h)
  · exact dedupKeepFirst_pairwise _ _
  · intro cols
    refine ⟨rfl, ?_, ?_⟩
    · show List.Sorted _ (List.drop 3 (keyCols ++ _))
      simp only [keyCols, List.cons_append, List.nil_append, List.drop_succ_cons,
        List.drop_zero]
      exact sortBy_str_pairwise _
    · show (List.drop 3 (keyCols ++ _)).Perm _
      simp only [keyCols, List.cons_append, List.nil_append, List.drop_succ_cons,
        List.drop_zero]
      exact sortBy_perm _ _

/-- Claim C1 witness: a concrete run with one gap, offset −1h, and a provider
that returns one row per requested day. -/
theorem getHistoricalDataSource_witness :
    OutRow.mk 1 2 (-82800) 1 ∈
      getHistoricalDataSource (fun d => [⟨d, 1⟩]) (-3600) 1 2 [(0, 0)] ∧
    ∃ g ∈ [((0 : Int), (0 : Int))],
      floorDayLocal (-3600) g.1 ≤ (OutRow.mk 1 2 (-82800) 1).ts ∧
      (OutRow.mk 1 2 (-82800) 1).ts ≤ floorDayLocal (-3600) g.2 + 23 * 3600 :=
  ⟨by decide,
   (getHistoricalDataSource_invariants (fun d => [⟨d, 1⟩]) (-3600) 1 2 [(0, 0)]).1 _
     (by decide)⟩

/-- A row of the frame returned by `_collect_forecasting`: the renamed
`timestamp`, the constant location columns and the stamped
`forecasting_timestamp`. -/
structure ForecastRow where
  latitude : ℚ
  longitude : ℚ
  timestamp : Int
  forecasting_timestamp : Int
  GHI : ℚ
deriving DecidableEq

/-- `MeteoGalicia._collect_forecasting`: rename `ts` to `timestamp`, assign
the location and the current UTC epoch second `nowTimestamp` as
`forecasting_timestamp`, then keep only rows with `timestamp >= now`.
`fetched` is the frame `_get_historic_data_day` returned for today. -/
def collectForecasting (fetched : List DayRow) (latitude longitude : ℚ)
    (nowTimestamp : Int) : List ForecastRow :=
  (fetched.map fun r => ForecastRow.mk latitude longitude r.ts nowTimestamp r.GHI).filter
    fun r => decide (nowTimestamp ≤ r.timestamp)

/-- Claim C4: every row returned by `_collect_forecasting` carries the current
UTC epoch second as `forecasting_timestamp`, and no row with a timestamp
before `now` survives the filter. -/
theorem collectForecasting_stamps (fetched : List DayRow) (latitude longitude : ℚ)
    (nowTimestamp : Int) :
    ∀ r ∈ collectForecasting fetched latitude longitude nowTimestamp,
      r.forecasting_timestamp = nowTimestamp ∧ nowTimestamp ≤ r.timestamp := by
  intro r hr
  unfold collectForecasting at hr
  rw [List.mem_filter] at hr
  obtain ⟨hmem, hfilter⟩ := hr
  rw [List.mem_map] at hmem
  obtain ⟨m, _, rfl⟩ := hmem
  simp only [decide_eq_true_eq] at hfilter
  exact ⟨rfl, hfilter⟩

/-- Claim C4 witness: a concrete collection at `now = 7` keeps the row with
timestamp 10 and stamps it with 7. -/
theorem collectForecasting_witness :
    ForecastRow.mk 0 0 10 7 2 ∈ collectForecasting [⟨5, 1⟩, ⟨10, 2⟩] 0 0 7 ∧
    (ForecastRow.mk 0 0 10 7 2).forecasting_timestamp = 7 ∧
    (7 : Int) ≤ (ForecastRow.mk 0 0 10 7 2).timestamp :=
  ⟨by decide, collectForecasting_stamps [⟨5, 1⟩, ⟨10, 2⟩] 0 0 7 _ (by decide)⟩

end MeteoGalicia


namespace MeteoGalicia

/-- The fixed resolution fallback list of `_get_historic_data_day`:
`(grid km, domain)` pairs tried in this order. -/
def resolutionList : List (Nat × Nat) := [(4, 2), (12, 2), (12, 1), (36, 2), (36, 1)]

/-- One row of the raw CSV text of the thredds server, before renaming and
timezone conversion. -/
structure CsvRow where
  date : String
  swflx : ℚ
deriving DecidableEq

/-- Whether the single attempt for a resolution produced a non-empty
response (`attempt r = none` models a raised request/parse exception,
`some []` the empty frame that `_get_historic_data_day` turns into a raised
and caught exception). -/
def attemptSucceeds (attempt : Nat × Nat → Option (List CsvRow)) (r : Nat × Nat) : Bool :=
  match attempt r with
  | some data => !data.isEmpty
  | none => false

/-- Position of the first resolution with a non-empty response. -/
def firstSuccessIdx (attempt : Nat × Nat → Option (List CsvRow)) :
    List (Nat × Nat) → Option ℕ
  | [] => none
  | r :: rs =>
    if attemptSucceeds attempt r then some 0
    else (firstSuccessIdx attempt rs).map (· + 1)

/-- The `for resolution in [...]` loop of `_get_historic_data_day`,
instrumented with the list of attempted resolutions: each failed or empty
attempt is logged and the loop moves to the next resolution; the first
non-empty response is parsed (`parse` models the rename, timezone conversion
and column selection) and returned at once; if no resolution succeeds the
function returns the empty frame.  No resolution is ever attempted twice. -/
def tryResolutions (attempt : Nat × Nat → Option (List CsvRow))
    (parse : CsvRow → DayRow) : List (Nat × Nat) → List DayRow × List (Nat × Nat)
  | [] => ([], [])
  | r :: rs =>
    match attempt r with
    | none =>
      ((tryResolutions attempt parse rs).1, r :: (tryResolutions attempt parse rs).2)
    | some data =>
      if data.isEmpty then
        ((tryResolutions attempt parse rs).1, r :: (tryResolutions attempt parse rs).2)
      else (data.map parse, [r])

/-- `MeteoGalicia._get_historic_data_day` over the fixed resolution list. -/
def getHistoricDataDay (attempt : Nat × Nat → Option (List CsvRow))
    (parse : CsvRow → DayRow) : List DayRow × List (Nat × Nat) :=
  tryResolutions attempt parse resolutionList

theorem tryResolutions_cons_fail (attempt : Nat × Nat → Option (List CsvRow))
    (parse : CsvRow → DayRow) (r : Nat × Nat) (rs : List (Nat × Nat))
    (h : attemptSucceeds attempt r = false) :
    tryResolutions attempt parse (r :: rs) =
      ((tryResolutions attempt parse rs).1, r :: (tryResolutions attempt parse rs).2) := by
  unfold attemptSucceeds at h
  cases hA : attempt r with
  | none => simp only [tryResolutions, hA]
  | some data =>
    rw [hA] at h
    simp only [Bool.not_eq_false'] at h
    simp only [tryResolutions, hA, h, if_true]

theorem tryResolutions_cons_succ (attempt : Nat × Nat → Option (List CsvRow))
    (parse : CsvRow → DayRow) (r : Nat × Nat) (rs : List (Nat × Nat))
    (data : List CsvRow) (h : attempt r = some data) (hne : data.isEmpty = false) :
    tryResolutions attempt parse (r :: rs) = (data.map parse, [r]) := by
  simp only [tryResolutions, h, hne]
  simp

theorem tryResolutions_trace_take (attempt : Nat × Nat → Option (List CsvRow))
    (parse : CsvRow → DayRow) :
    ∀ l : List (Nat × Nat),
      (tryResolutions attempt parse l).2 =
        l.take (tryResolutions attempt parse l).2.length := by
  intro l
  induction l with
  | nil => simp [tryResolutions]
  | cons r rs ih =>
    by_cases hs : attemptSucceeds attempt r = true
    · unfold attemptSucceeds at hs
      cases hA : attempt r with
      | none => rw [hA] at hs; simp at hs
      | some data =>
        rw [hA] at hs
        simp only [Bool.not_eq_true'] at hs
        rw [tryResolutions_cons_succ attempt parse r rs data hA hs]
        simp
    · rw [Bool.not_eq_true] at hs
      rw [tryResolutions_cons_fail attempt parse r rs hs]
      simpa using ih

theorem tryResolutions_none (attempt : Nat × Nat → Option (List CsvRow))
    (parse : CsvRow → DayRow) :
    ∀ l : List (Nat × Nat), firstSuccessIdx attempt l = none →
      tryResolutions attempt parse l = ([], l) := by
  intro l
  induction l with
  | nil => intro _; rfl
  | cons r rs ih =>
    intro hnone
    unfold firstSuccessIdx at hnone
    by_cases hs : attemptSucceeds attempt r = true
    · rw [if_pos hs] at hnone
      exact absurd hnone (by simp)
    · rw [if_neg hs] at hnone
      rw [Bool.not_eq_true] at hs
      have hrs : firstSuccessIdx attempt rs = none := by
        cases h2 : firstSuccessIdx attempt rs with
        | none => rfl
        | some i => rw [h2] at hnone; simp at hnone
      rw [tryResolutions_cons_fail attempt parse r rs hs, ih hrs]

theorem tryResolutions_some (attempt : Nat × Nat → Option (List CsvRow))
    (parse : CsvRow → DayRow) :
    ∀ (l : List (Nat × Nat)) (i : ℕ), firstSuccessIdx attempt l = some i →
      (tryResolutions attempt parse l).2.length = i + 1 ∧
      ∃ data, attempt (l.getD i (0, 0)) = some data ∧ data ≠ [] ∧
        (tryResolutions attempt parse l).1 = data.map parse := by
  intro l
  induction l with
  | nil => intro i h; simp [firstSuccessIdx] at h
  | cons r rs ih =>
    intro i h
    unfold firstSuccessIdx at h
    by_cases hs : attemptSucceeds attempt r = true
    · rw [if_pos hs] at h
      have hi : i = 0 := by injection h with h2; omega
      subst hi
      unfold attemptSucceeds at hs
      cases hA : attempt r with
      | none => rw [hA] at hs; simp at hs
      | some data =>
        rw [hA] at hs
        simp only [Bool.not_eq_true'] at hs
        have hdne : data ≠ [] := by
          intro hEq
          rw [hEq] at hs
          simp at hs
        rw [tryResolutions_cons_succ attempt parse r rs data hA hs]
        exact ⟨rfl, data, hA, hdne, rfl⟩
    · rw [if_neg hs] at h
      rw [Bool.not_eq_true] at hs
      cases h2 : firstSuccessIdx attempt rs with
      | none => rw [h2] at h; simp at h
      | some j =>
        rw [h2] at h
        simp only [Option.map_some', Option.some_inj] at h
        obtain ⟨hlen, data, hdata, hdne, hres⟩ := ih j h2
        rw [tryResolutions_cons_fail attempt parse r rs hs]
        subst h
        refine ⟨by simpa using hlen, data, ?_, hdne, hres⟩
        simpa using hdata

/-- Claim C5: the daily fetch `_get_historic_data_day` tries the fixed
resolution list (4,2), (12,2), (12,1), (36,2), (36,1) in order, making at
most one attempt per resolution with no retries (the attempted list is a
duplicate-free initial segment of the fixed list), returns the parsed result
of the first resolution whose response is non-empty without attempting later
ones, and when every resolution fails or returns empty it attempts all five
and returns the empty frame, never raising. -/
theorem getHistoricDataDay_fallback (attempt : Nat × Nat → Option (List CsvRow))
    (parse : CsvRow → DayRow) :
    (getHistoricDataDay attempt parse).2.Nodup ∧
    (getHistoricDataDay attempt parse).2 =
      resolutionList.take (getHistoricDataDay attempt parse).2.length ∧
    (firstSuccessIdx attempt resolutionList = none →
      getHistoricDataDay attempt parse = ([], resolutionList)) ∧
    ∀ i : ℕ, firstSuccessIdx attempt resolutionList = some i →
      (getHistoricDataDay attempt parse).2.length = i + 1 ∧
      ∃ data, attempt (resolutionList.getD i (0, 0)) = some data ∧ data ≠ [] ∧
        (getHistoricDataDay attempt parse).1 = data.map parse := by
  refine ⟨?_, tryResolutions_trace_take attempt parse resolutionList,
    tryResolutions_none attempt parse resolutionList,
    fun i h => tryResolutions_some attempt parse resolutionList i h⟩
  have htake := tryResolutions_trace_take attempt parse resolutionList
  have hnodup : resolutionList.Nodup := by decide
  unfold getHistoricDataDay
  rw [htake]
  exact (List.take_sublist _ _).nodup hnodup

/-- A concrete attempt pattern for the C5 witness: the 4km request raises,
the first 12km request returns an empty frame, the second 12km request
returns one row. -/
def attemptW : Nat × Nat → Option (List CsvRow)
  | (4, 2) => none
  | (12, 2) => some []
  | (12, 1) => some [⟨"2018-01-22 01:00", 100⟩]
  | _ => none

/-- Claim C5 witness: on `attemptW` the fallback stops after the third
resolution and returns its parsed row. -/
theorem getHistoricDataDay_witness :
    (getHistoricDataDay attemptW (fun c => ⟨0, c.swflx⟩)).2.length = 3 ∧
    ∃ data, attemptW (resolutionList.getD 2 (0, 0)) = some data ∧ data ≠ [] ∧
      (getHistoricDataDay attemptW (fun c => ⟨0, c.swflx⟩)).1 =
        data.map fun c => ⟨0, c.swflx⟩ := by
  have h := (getHistoricDataDay_fallback attemptW (fun c => ⟨0, c.swflx⟩)).2.2.2 2 (by decide)
  exact ⟨by rw [h.1], h.2⟩

end MeteoGalicia

namespace MeteoGalicia

/-- Python's built-in `round` (used by pandas `round(series * 10)`): round
half to even (banker's rounding). -/
def roundHalfToEven (x : ℚ) : ℤ :=
  if x - ⌊x⌋ = 1 / 2 then (if Even ⌊x⌋ then ⌊x⌋ else ⌊x⌋ + 1) else round x

/-- A raw grid cell of `_get_historic_forecasting_raster` after the netcdf
parse and renaming (before `_collect_raster` drops `Lambert_Conformal`,
`windSpeed` and `windDirection`). -/
structure RasterRow where
  latitude : ℚ
  longitude : ℚ
  timestamp : Int
  forecasting_timestamp : Int
  Lambert_Conformal : ℚ
  windSpeed : ℚ
  windDirection : ℚ
  totalPrecipitation : ℚ
  relativeHumidity : ℚ
  GHI : ℚ
  airTemperature : ℚ
  atmosphericPressure : ℚ
  cloudCloverHighLevels : ℚ
  cloudCloverMidLevels : ℚ
  cloudCloverLowLevels : ℚ
  visibility : ℚ
  u : ℚ
  v : ℚ
deriving DecidableEq

/-- The groupby key of `_collect_raster`: `(forecasting_timestamp,
timestamp, latitude, longitude)` with both coordinates rounded at precision
0.1 (scaled by 10 to an integer; the string conversion with the `-0.0`
fix-up of the code identifies exactly the cells with equal rounded
values). -/
def rasterKey (r : RasterRow) : Int × Int × ℤ × ℤ :=
  (r.forecasting_timestamp, r.timestamp,
   roundHalfToEven (r.latitude * 10), roundHalfToEven (r.longitude * 10))

/-- Lexicographic order on groupby keys (pandas emits groups sorted by
key). -/
def keyLe (a b : Int × Int × ℤ × ℤ) : Bool :=
  decide (a.1 < b.1) ||
    (decide (a.1 = b.1) &&
      (decide (a.2.1 < b.2.1) ||
        (decide (a.2.1 = b.2.1) &&
          (decide (a.2.2.1 < b.2.2.1) ||
            (decide (a.2.2.1 = b.2.2.1) && decide (a.2.2.2 ≤ b.2.2.2))))))

/-- Arithmetic mean, the `agg` function applied to every numeric column. -/
def mean (xs : List ℚ) : ℚ := xs.sum / xs.length

/-- The grid cells falling into the group of key `k`. -/
def groupOf (rows : List RasterRow) (k : Int × Int × ℤ × ℤ) : List RasterRow :=
  rows.filter fun r => decide (rasterKey r = k)

/-- One output row of `_collect_raster`: the group key and the per-column
means over the group. -/
structure AggRow where
  forecasting_timestamp : Int
  timestamp : Int
  latitudeKey : ℤ
  longitudeKey : ℤ
  totalPrecipitation : ℚ
  relativeHumidity : ℚ
  GHI : ℚ
  airTemperature : ℚ
  atmosphericPressure : ℚ
  cloudCloverHighLevels : ℚ
  cloudCloverMidLevels : ℚ
  cloudCloverLowLevels : ℚ
  visibility : ℚ
  u : ℚ
  v : ℚ
deriving DecidableEq

/-- The aggregated row for key `k`. -/
def aggOf (rows : List RasterRow) (k : Int × Int × ℤ × ℤ) : AggRow where
  forecasting_timestamp := k.1
  timestamp := k.2.1
  latitudeKey := k.2.2.1
  longitudeKey := k.2.2.2
  totalPrecipitation := mean ((groupOf rows k).map fun r => r.totalPrecipitation)
  relativeHumidity := mean ((groupOf rows k).map fun r => r.relativeHumidity)
  GHI := mean ((groupOf rows k).map fun r => r.GHI)
  airTemperature := mean ((groupOf rows k).map fun r => r.airTemperature)
  atmosphericPressure := mean ((groupOf rows k).map fun r => r.atmosphericPressure)
  cloudCloverHighLevels := mean ((groupOf rows k).map fun r => r.cloudCloverHighLevels)
  cloudCloverMidLevels := mean ((groupOf rows k).map fun r => r.cloudCloverMidLevels)
  cloudCloverLowLevels := mean ((groupOf rows k).map fun r => r.cloudCloverLowLevels)
  visibility := mean ((groupOf rows k).map fun r => r.visibility)
  u := mean ((groupOf rows k).map fun r => r.u)
  v := mean ((groupOf rows k).map fun r => r.v)

/-- The key columns of an aggregated row. -/
def aggKey (a : AggRow) : Int × Int × ℤ × ℤ :=
  (a.forecasting_timestamp, a.timestamp, a.latitudeKey, a.longitudeKey)

/-- `MeteoGalicia._collect_raster` after the timestamp conversions: group
the raw cells by `rasterKey` (pandas sorts the group keys) and aggregate
every numeric column by its mean. -/
def collectRaster (rows : List RasterRow) : List AggRow :=
  (sortBy keyLe (dedupKeepFirst id (rows.map rasterKey))).map (aggOf rows)

theorem dedupGo_id_mem {κ : Type} [DecidableEq κ] :
    ∀ (l seen : List κ) (x : κ), x ∈ l → x ∈ dedupGo id l seen ∨ x ∈ seen := by
  intro l
  induction l with
  | nil => intro seen x hx; simp at hx
  | cons a as ih =>
    intro seen x hx
    unfold dedupGo
    by_cases ha : (id a : κ) ∈ seen
    · rw [if_pos ha]
      rcases List.mem_cons.mp hx with rfl | hx
      · exact Or.inr ha
      · exact ih seen x hx
    · rw [if_neg ha]
      rcases List.mem_cons.mp hx with rfl | hx
      · exact Or.inl (List.mem_cons_self _ _)
      · rcases ih (id a :: seen) x hx with h | h
        · exact Or.inl (List.mem_cons_of_mem _ h)
        · rcases List.mem_cons.mp h with rfl | h
          · exact Or.inl (List.mem_cons_self _ _)
          · exact Or.inr h

theorem mem_dedupKeepFirst_id {κ : Type} [DecidableEq κ] (l : List κ) (x : κ)
    (hx : x ∈ l) : x ∈ dedupKeepFirst id l := by
  rcases dedupGo_id_mem l [] x hx with h | h
  · exact h
  · simp at h

theorem filter_map_key_singleton {κ β : Type} [DecidableEq κ] (f : κ → β) (keyF : β → κ)
    (hf : ∀ k, keyF (f k) = k) :
    ∀ (keys : List κ) (k : κ), keys.Nodup → k ∈ keys →
      (keys.map f).filter (fun b => decide (keyF b = k)) = [f k] := by
  intro keys
  induction keys with
  | nil => intro k _ hk; simp at hk
  | cons k0 ks ih =>
    intro k hnd hk
    rw [List.nodup_cons] at hnd
    obtain ⟨hk0, hnd⟩ := hnd
    rcases List.mem_cons.mp hk with rfl | hk
    · have hrest : (ks.map f).filter (fun b => decide (keyF b = k)) = [] := by
        rw [List.filter_eq_nil_iff]
        intro b hb
        rw [List.mem_map] at hb
        obtain ⟨k2, hk2, rfl⟩ := hb
        simp only [hf, decide_eq_true_eq]
        intro hEq
        exact hk0 (hEq ▸ hk2)
      simp only [List.map_cons, List.filter_cons, hf]
      rw [if_pos (by simp), hrest]
    · have hne : k0 ≠ k := fun hEq => hk0 (hEq ▸ hk)
      simp only [List.map_cons, List.filter_cons, hf]
      rw [if_neg (by simp [hne]), ih k hnd hk]

/-- Claim C8: raw grid cells whose coordinates round to the same
`(latitude, longitude)` at precision 0.1 and share the same
`(forecasting_timestamp, timestamp)` are collapsed by `_collect_raster` into
exactly one output row whose aggregated numeric columns are the arithmetic
mean of the grouped cells. -/
theorem collectRaster_group_mean (rows : List RasterRow) (k : Int × Int × ℤ × ℤ)
    (hk : k ∈ rows.map rasterKey) :
    ∃ a : AggRow,
      (collectRaster rows).filter (fun b => decide (aggKey b = k)) = [a] ∧
      a.totalPrecipitation = mean ((groupOf rows k).map fun r => r.totalPrecipitation) ∧
      a.relativeHumidity = mean ((groupOf rows k).map fun r => r.relativeHumidity) ∧
      a.GHI = mean ((groupOf rows k).map fun r => r.GHI) ∧
      a.airTemperature = mean ((groupOf rows k).map fun r => r.airTemperature) ∧
      a.atmosphericPressure = mean ((groupOf rows k).map fun r => r.atmosphericPressure) ∧
      a.cloudCloverHighLevels = mean ((groupOf rows k).map fun r => r.cloudCloverHighLevels) ∧
      a.cloudCloverMidLevels = mean ((groupOf rows k).map fun r => r.cloudCloverMidLevels) ∧
      a.cloudCloverLowLevels = mean ((groupOf rows k).map fun r => r.cloudCloverLowLevels) ∧
      a.visibility = mean ((groupOf rows k).map fun r => r.visibility) ∧
      a.u = mean ((groupOf rows k).map fun r => r.u) ∧
      a.v = mean ((groupOf rows k).map fun r => r.v) := by
  refine ⟨aggOf rows k, ?_, rfl, rfl, rfl, rfl, rfl, rfl, rfl, rfl, rfl, rfl, rfl⟩
  have hnd : (sortBy keyLe (dedupKeepFirst id (rows.map rasterKey))).Nodup := by
    have h1 : (dedupKeepFirst id (rows.map rasterKey)).Nodup := by
      have := dedupKeepFirst_pairwise (id : Int × Int × ℤ × ℤ → Int × Int × ℤ × ℤ)
        (rows.map rasterKey)
      simpa [List.Nodup] using this
    exact (sortBy_perm keyLe (dedupKeepFirst id (rows.map rasterKey))).symm.nodup h1
  have hmem : k ∈ sortBy keyLe (dedupKeepFirst id (rows.map rasterKey)) := by
    rw [(sortBy_perm keyLe _).mem_iff]
    exact mem_dedupKeepFirst_id _ k hk
  exact filter_map_key_singleton (aggOf rows) aggKey (fun _ => rfl) _ k hnd hmem

/-- Two adjacent raw cells for the C8 witness: latitudes 1.02 and 0.98 both
round to 1.0 at precision 0.1. -/
def wRow1 : RasterRow where
  latitude := 51 / 50
  longitude := 2
  timestamp := 0
  forecasting_timestamp := 0
  Lambert_Conformal := 0
  windSpeed := 0
  windDirection := 0
  totalPrecipitation := 1
  relativeHumidity := 0
  GHI := 0
  airTemperature := 0
  atmosphericPressure := 0
  cloudCloverHighLevels := 0
  cloudCloverMidLevels := 0
  cloudCloverLowLevels := 0
  visibility := 0
  u := 1
  v := 0

/-- Second witness cell, differing in latitude and values. -/
def wRow2 : RasterRow where
  latitude := 49 / 50
  longitude := 2
  timestamp := 0
  forecasting_timestamp := 0
  Lambert_Conformal := 0
  windSpeed := 0
  windDirection := 0
  totalPrecipitation := 2
  relativeHumidity := 0
  GHI := 0
  airTemperature := 0
  atmosphericPressure := 0
  cloudCloverHighLevels := 0
  cloudCloverMidLevels := 0
  cloudCloverLowLevels := 0
  visibility := 0
  u := 3
  v := 0

/-- Claim C8 witness: the two adjacent cells collapse to one row whose `u`
is their mean 2 and whose `totalPrecipitation` is 3/2. -/
theorem collectRaster_witness :
    ∃ a : AggRow,
      (collectRaster [wRow1, wRow2]).filter
        (fun b => decide (aggKey b = (0, 0, 10, 20))) = [a] ∧
      a.u = mean ((groupOf [wRow1, wRow2] (0, 0, 10, 20)).map fun r => r.u) ∧
      mean ((groupOf [wRow1, wRow2] (0, 0, 10, 20)).map fun r => r.u) = 2 := by
  have h1 : rasterKey wRow1 = (0, 0, 10, 20) := by
    unfold rasterKey wRow1 roundHalfToEven
    norm_num [round_eq]
  have h2 : rasterKey wRow2 = (0, 0, 10, 20) := by
    unfold rasterKey wRow2 roundHalfToEven
    norm_num [round_eq]
  obtain ⟨a, hfil, h⟩ :=
    collectRaster_group_mean [wRow1, wRow2] (0, 0, 10, 20) (by simp [h1])
  refine ⟨a, hfil, h.2.2.2.2.2.2.2.2.2.1, ?_⟩
  have hg : groupOf [wRow1, wRow2] (0, 0, 10, 20) = [wRow1, wRow2] := by
    simp [groupOf, List.filter_cons, h1, h2]
  rw [hg]
  show mean [wRow1.u, wRow2.u] = 2
  norm_num [mean, wRow1, wRow2]

end MeteoGalicia

theorem map_zipWith_left {α β γ δ : Type} (f : α → β → γ) (F : γ → δ) (G : α → δ)
    (h : ∀ a b, F (f a b) = G a) :
    ∀ (l1 : List α) (l2 : List β), l1.length ≤ l2.length →
      (List.zipWith f l1 l2).map F = l1.map G := by
  intro l1
  induction l1 with
  | nil => simp
  | cons a as ih =>
    intro l2 hlen
    cases l2 with
    | nil => simp at hlen
    | cons b bs =>
      simp only [List.zipWith_cons_cons, List.map_cons, h]
      rw [ih bs (by simpa using hlen)]

theorem mem_zipWith {α β γ : Type} (f : α → β → γ) :
    ∀ (l1 : List α) (l2 : List β) (x : γ), x ∈ List.zipWith f l1 l2 →
      ∃ a ∈ l1, ∃ b ∈ l2, x = f a b := by
  intro l1
  induction l1 with
  | nil => simp
  | cons a as ih =>
    intro l2 x hx
    cases l2 with
    | nil => simp [List.zipWith] at hx
    | cons b bs =>
      rw [List.zipWith_cons_cons, List.mem_cons] at hx
      rcases hx with rfl | hx
      · exact ⟨a, List.mem_cons_self _ _, b, List.mem_cons_self _ _, rfl⟩
      · obtain ⟨a2, ha2, b2, hb2, rfl⟩ := ih bs x hx
        exact ⟨a2, List.mem_cons_of_mem _ ha2, b2, List.mem_cons_of_mem _ hb2, rfl⟩

theorem getD_map_of_lt {α β : Type} (f : α → β) (l : List α) (i : ℕ)
    (hi : i < l.length) (d : α) (d2 : β) : (l.map f).getD i d2 = f (l.getD i d) := by
  rw [List.getD_eq_getElem?_getD, List.getElem?_map, List.getD_eq_getElem?_getD,
    List.getElem?_eq_getElem hi]
  simp

namespace Era5

/-- np.arctan2 over the reals: the argument of the complex number `x + y i`,
in `(-π, π]`. -/
noncomputable def atan2 (y x : ℝ) : ℝ := Complex.arg ⟨x, y⟩

/-- One row of the merged per-file frame entering `transformation_pipe`
(after `cleaning_pipe` dropped NaNs and renamed the short codes): the eleven
ERA5-Land variables, plus the timestamp. -/
structure RawRow where
  time : Int
  windSpeedEast : ℝ
  windSpeedNorth : ℝ
  dewAirTemperature : ℝ
  airTemperature : ℝ
  highVegetationRatio : ℝ
  lowVegetationRatio : ℝ
  totalPrecipitation : ℝ
  GHI : ℝ
  albedo : ℝ
  soilTemperature : ℝ
  soilWaterRatio : ℝ

/-- One row of the frame produced by `transformation_pipe`: the de-accumulated
`GHI` is always a number (`np.where` replaces a NaN difference by 0) while
the de-accumulated `totalPrecipitation` can be missing. -/
structure TransRow where
  time : Int
  windSpeedEast : ℝ
  windSpeedNorth : ℝ
  highVegetationRatio : ℝ
  lowVegetationRatio : ℝ
  albedo : ℝ
  soilWaterRatio : ℝ
  windSpeed : ℝ
  windDirection : ℝ
  soilTemperature : ℝ
  dewAirTemperature : ℝ
  airTemperature : ℝ
  relativeHumidity : ℝ
  GHI : ℝ
  totalPrecipitation : Option ℝ

/-- Subtraction with NaN propagation (`np.array(col) - shift(col, 1)`). -/
def optSub : Option ℝ → Option ℝ → Option ℝ
  | some a, some b => some (a - b)
  | _, _ => none

/-- The first difference of a cumulative column against its previous hourly
value: `np.array(col) - shift(col, 1)`; position 0 is NaN. -/
def diffPrev (col : List ℝ) : List (Option ℝ) :=
  List.zipWith optSub (col.map some) (shift (col.map some) 1 none)

/-- De-accumulated `GHI`: `np.where(diff > 0, diff / 3600, 0)`.  A NaN
difference compares as not-greater, so `np.where` yields the real number 0
there. -/
noncomputable def ghiDeacc (col : List ℝ) : List ℝ :=
  (diffPrev col).map fun d =>
    match d with
    | some x => if 0 < x then x / 3600 else 0
    | none => 0

/-- De-accumulated `totalPrecipitation`:
`np.where(diff > 0, diff / 3600, np.nan)`. -/
noncomputable def precipDeacc (col : List ℝ) : List (Option ℝ) :=
  (diffPrev col).map fun d =>
    match d with
    | some x => if 0 < x then some (x / 3600) else none
    | none => none

/-- The row-local part of `transformation_pipe`: wind speed/direction from
the wind vector, Kelvin-to-Celsius conversion of the three temperatures, and
relative humidity computed from the already-converted temperatures; `g` and
`p` are the row's de-accumulated `GHI` and `totalPrecipitation`. -/
noncomputable def transRow (r : RawRow) (g : ℝ) (p : Option ℝ) : TransRow where
  time := r.time
  windSpeedEast := r.windSpeedEast
  windSpeedNorth := r.windSpeedNorth
  highVegetationRatio := r.highVegetationRatio
  lowVegetationRatio := r.lowVegetationRatio
  albedo := r.albedo
  soilWaterRatio := r.soilWaterRatio
  windSpeed := Real.sqrt (r.windSpeedEast ^ 2 + r.windSpeedNorth ^ 2)
  windDirection := atan2 r.windSpeedNorth r.windSpeedEast * 180 / Real.pi + 180
  soilTemperature := r.soilTemperature - 273.15
  dewAirTemperature := r.dewAirTemperature - 273.15
  airTemperature := r.airTemperature - 273.15
  relativeHumidity :=
    6.112 * Real.exp (17.67 * (r.dewAirTemperature - 273.15) /
        ((r.dewAirTemperature - 273.15) + 243.5)) * 100 /
      (6.112 * Real.exp (17.67 * (r.airTemperature - 273.15) /
        ((r.airTemperature - 273.15) + 243.5)))
  GHI := g
  totalPrecipitation := p

/-- `era5/utils.py::transformation_pipe` on the per-file frame. -/
noncomputable def transformation_pipe (df : List RawRow) : List TransRow :=
  List.zipWith (fun r gp => transRow r gp.1 gp.2) df
    (List.zipWith Prod.mk (ghiDeacc (df.map fun r => r.GHI))
      (precipDeacc (df.map fun r => r.totalPrecipitation)))

/-- Default rows for positional (`getD`) access. -/
def dRaw : RawRow where
  time := 0
  windSpeedEast := 0
  windSpeedNorth := 0
  dewAirTemperature := 0
  airTemperature := 0
  highVegetationRatio := 0
  lowVegetationRatio := 0
  totalPrecipitation := 0
  GHI := 0
  albedo := 0
  soilTemperature := 0
  soilWaterRatio := 0

/-- Default output row for positional (`getD`) access. -/
noncomputable def dTrans : TransRow := transRow dRaw 0 none

theorem diffPrev_length (col : List ℝ) : (diffPrev col).length = col.length := by
  simp [diffPrev, List.length_zipWith, shift_length]

theorem ghiDeacc_length (col : List ℝ) : (ghiDeacc col).length = col.length := by
  simp [ghiDeacc, diffPrev_length]

theorem precipDeacc_length (col : List ℝ) : (precipDeacc col).length = col.length := by
  simp [precipDeacc, diffPrev_length]

theorem transformation_pipe_length (df : List RawRow) :
    (transformation_pipe df).length = df.length := by
  simp [transformation_pipe, List.length_zipWith, ghiDeacc_length, precipDeacc_length]

theorem diffPrev_getElem?_succ (col : List ℝ) (i : ℕ) (h1 : 1 ≤ i)
    (h2 : i < col.length) :
    (diffPrev col)[i]? = some (some (col.getD i 0 - col.getD (i - 1) 0)) := by
  unfold diffPrev
  rw [List.getElem?_zipWith]
  rw [shift_getElem?_ge (col.map some) 1 none (by omega) i (by simpa using h2)
    (by omega)]
  rw [List.getElem?_map, List.getElem?_map]
  rw [List.getElem?_eq_getElem h2, List.getElem?_eq_getElem (show i - (1 : Int).toNat < col.length by omega)]
  simp only [Option.map_some']
  show some (optSub (some _) (some _)) = _
  rw [List.getD_eq_getElem?_getD, List.getD_eq_getElem?_getD,
    List.getElem?_eq_getElem h2, List.getElem?_eq_getElem (show i - 1 < col.length by omega)]
  rfl

theorem diffPrev_getElem?_zero (col : List ℝ) (h : 0 < col.length) :
    (diffPrev col)[0]? = some none := by
  unfold diffPrev
  rw [List.getElem?_zipWith]
  rw [shift_getElem?_lt (col.map some) 1 none (by omega) 0 (by simpa using h) (by omega)]
  rw [List.getElem?_map, List.getElem?_eq_getElem h]
  rfl

theorem ghiDeacc_getD_succ (col : List ℝ) (i : ℕ) (h1 : 1 ≤ i) (h2 : i < col.length) :
    (ghiDeacc col).getD i 0 =
      if 0 < col.getD i 0 - col.getD (i - 1) 0
      then (col.getD i 0 - col.getD (i - 1) 0) / 3600 else 0 := by
  rw [List.getD_eq_getElem?_getD, ghiDeacc, List.getElem?_map,
    diffPrev_getElem?_succ col i h1 h2]
  rfl

theorem precipDeacc_getD_succ (col : List ℝ) (i : ℕ) (h1 : 1 ≤ i) (h2 : i < col.length) :
    (precipDeacc col).getD i none =
      if 0 < col.getD i 0 - col.getD (i - 1) 0
      then some ((col.getD i 0 - col.getD (i - 1) 0) / 3600) else none := by
  rw [List.getD_eq_getElem?_getD, precipDeacc, List.getElem?_map,
    diffPrev_getElem?_succ col i h1 h2]
  rfl

theorem ghiDeacc_getD_zero (col : List ℝ) (h : 0 < col.length) :
    (ghiDeacc col).getD 0 0 = 0 := by
  rw [List.getD_eq_getElem?_getD, ghiDeacc, List.getElem?_map, diffPrev_getElem?_zero col h]
  rfl

theorem precipDeacc_getD_zero (col : List ℝ) (h : 0 < col.length) :
    (precipDeacc col).getD 0 none = none := by
  rw [List.getD_eq_getElem?_getD, precipDeacc, List.getElem?_map, diffPrev_getElem?_zero col h]
  rfl

theorem transformation_pipe_getD (df : List RawRow) (i : ℕ) (hi : i < df.length) :
    (transformation_pipe df).getD i dTrans =
      transRow (df.getD i dRaw)
        ((ghiDeacc (df.map fun r => r.GHI)).getD i 0)
        ((precipDeacc (df.map fun r => r.totalPrecipitation)).getD i none) := by
  have hg : i < (ghiDeacc (df.map fun r => r.GHI)).length := by
    rw [ghiDeacc_length, List.length_map]
    exact hi
  have hp : i < (precipDeacc (df.map fun r => r.totalPrecipitation)).length := by
    rw [precipDeacc_length, List.length_map]
    exact hi
  rw [List.getD_eq_getElem?_getD, transformation_pipe, List.getElem?_zipWith,
    List.getElem?_zipWith, List.getElem?_eq_getElem hi,
    List.getElem?_eq_getElem hg, List.getElem?_eq_getElem hp,
    List.getD_eq_getElem?_getD, List.getD_eq_getElem?_getD, List.getD_eq_getElem?_getD,
    List.getElem?_eq_getElem hi, List.getElem?_eq_getElem hg, List.getElem?_eq_getElem hp]
  rfl

theorem zipPairs_length_ge (df : List RawRow) :
    df.length ≤ (List.zipWith Prod.mk (ghiDeacc (df.map fun r => r.GHI))
      (precipDeacc (df.map fun r => r.totalPrecipitation))).length := by
  simp [List.length_zipWith, ghiDeacc_length, precipDeacc_length]

/-- Claim C6: for every temperature value K in Kelvin in the columns
`airTemperature`, `dewAirTemperature` and `soilTemperature`, the normalizer
`transformation_pipe` outputs exactly K − 273.15. -/
theorem transformation_pipe_kelvin_to_celsius (df : List RawRow) :
    ((transformation_pipe df).map fun r => r.airTemperature) =
      (df.map fun r => r.airTemperature - 273.15) ∧
    ((transformation_pipe df).map fun r => r.dewAirTemperature) =
      (df.map fun r => r.dewAirTemperature - 273.15) ∧
    ((transformation_pipe df).map fun r => r.soilTemperature) =
      (df.map fun r => r.soilTemperature - 273.15) := by
  unfold transformation_pipe
  refine ⟨map_zipWith_left _ _ _ ?_ df _ (zipPairs_length_ge df),
    map_zipWith_left _ _ _ ?_ df _ (zipPairs_length_ge df),
    map_zipWith_left _ _ _ ?_ df _ (zipPairs_length_ge df)⟩ <;>
  exact fun _ _ => rfl

theorem rh_cancel (a b : ℝ) :
    6.112 * Real.exp a * 100 / (6.112 * Real.exp b) = 100 * Real.exp a / Real.exp b := by
  field_simp
  ring

/-- Claim C7: `relativeHumidity` is computed after the Kelvin-to-Celsius
conversion, from the already-converted Celsius dewpoint Td and temperature T,
and equals the Magnus form 100·exp(17.67·Td/(Td+243.5))/exp(17.67·T/(T+243.5))
— the code's 6.112 saturation-pressure factors cancel. -/
theorem transformation_pipe_humidity (df : List RawRow) :
    ((transformation_pipe df).map fun r => r.relativeHumidity) =
      df.map fun r =>
        100 * Real.exp (17.67 * (r.dewAirTemperature - 273.15) /
            ((r.dewAirTemperature - 273.15) + 243.5)) /
          Real.exp (17.67 * (r.airTemperature - 273.15) /
            ((r.airTemperature - 273.15) + 243.5)) := by
  unfold transformation_pipe
  refine map_zipWith_left _ _ _ ?_ df _ (zipPairs_length_ge df)
  exact fun a b => rh_cancel _ _

theorem windDirection_bounds (y x : ℝ) :
    0 ≤ atan2 y x * 180 / Real.pi + 180 ∧ atan2 y x * 180 / Real.pi + 180 ≤ 360 := by
  have hpi := Real.pi_pos
  have h1 : -Real.pi < atan2 y x := Complex.neg_pi_lt_arg _
  have h2 : atan2 y x ≤ Real.pi := Complex.arg_le_pi _
  constructor
  · have h3 : -180 ≤ atan2 y x * 180 / Real.pi := by
      rw [le_div_iff₀ hpi]
      nlinarith
    linarith
  · have h3 : atan2 y x * 180 / Real.pi ≤ 180 := by
      rw [div_le_iff₀ hpi]
      nlinarith
    linarith

/-- Claim C3 (amended): for every wind vector (u, v), `windSpeed` is
sqrt(u² + v²), hence non-negative, and `windDirection` is atan2(v, u) in
degrees plus 180, which lies in the closed interval [0, 360]; the endpoint
360 is attained (see the counterexample), so the half-open [0, 360) of the
original claim fails. -/
theorem transformation_pipe_wind (df : List RawRow) :
    ((transformation_pipe df).map fun r => r.windSpeed) =
      (df.map fun r => Real.sqrt (r.windSpeedEast ^ 2 + r.windSpeedNorth ^ 2)) ∧
    ((transformation_pipe df).map fun r => r.windDirection) =
      (df.map fun r => atan2 r.windSpeedNorth r.windSpeedEast * 180 / Real.pi + 180) ∧
    ∀ r ∈ transformation_pipe df,
      0 ≤ r.windSpeed ∧ 0 ≤ r.windDirection ∧ r.windDirection ≤ 360 := by
  constructor
  · unfold transformation_pipe
    refine map_zipWith_left _ _ _ ?_ df _ (zipPairs_length_ge df)
    exact fun _ _ => rfl
  constructor
  · unfold transformation_pipe
    refine map_zipWith_left _ _ _ ?_ df _ (zipPairs_length_ge df)
    exact fun _ _ => rfl
  intro r hr
  obtain ⟨a, _, b, _, rfl⟩ := mem_zipWith _ df _ r hr
  exact ⟨Real.sqrt_nonneg _, (windDirection_bounds _ _).1, (windDirection_bounds _ _).2⟩

theorem transformation_pipe_singleton (r : RawRow) :
    transformation_pipe [r] = [transRow r 0 none] := by
  have hshift : ∀ x : ℝ, shift [some x] 1 (none : Option ℝ) = [none] := by
    intro x
    unfold shift
    rw [if_pos (by norm_num)]
    rfl
  unfold transformation_pipe ghiDeacc precipDeacc diffPrev
  simp only [List.map_cons, List.map_nil, hshift]
  rfl

/-- A concrete wind row for the C3 witness. -/
def wWind : RawRow := { dRaw with windSpeedEast := 3, windSpeedNorth := 4 }

/-- Claim C3 witness: the bounds hold for the concrete wind vector (3, 4). -/
theorem transformation_pipe_wind_witness :
    0 ≤ (transRow wWind 0 none).windSpeed ∧
    0 ≤ (transRow wWind 0 none).windDirection ∧
    (transRow wWind 0 none).windDirection ≤ 360 :=
  (transformation_pipe_wind [wWind]).2.2 (transRow wWind 0 none)
    (by rw [transformation_pipe_singleton]; exact List.mem_singleton.mpr rfl)

/-- The wind vector (−1, 0), pointing exactly west-to-east-negative: its
arctan2 is exactly π. -/
def cexWind : RawRow := { dRaw with windSpeedEast := -1, windSpeedNorth := 0 }

/-- Claim C3 counterexample: on the wind vector (u, v) = (−1, 0) the code
computes windDirection = π·180/π + 180 = 360, which is not < 360, so the
original half-open range [0, 360) is wrong. -/
theorem windDirection_counterexample :
    ((transformation_pipe [cexWind]).map fun r => r.windDirection) = [360] ∧
    ¬ ((360 : ℝ) < 360) := by
  constructor
  · rw [transformation_pipe_singleton]
    simp only [List.map_cons, List.map_nil]
    have harg : atan2 (0 : ℝ) (-1) = Real.pi := by
      unfold atan2
      have h : (⟨-1, 0⟩ : ℂ) = -1 := by
        apply Complex.ext
        · simp
        · simp
      rw [h, Complex.arg_neg_one]
    have hdir : (transRow cexWind 0 none).windDirection = 360 := by
      show atan2 cexWind.windSpeedNorth cexWind.windSpeedEast * 180 / Real.pi + 180 = 360
      have he : cexWind.windSpeedEast = -1 := rfl
      have hn : cexWind.windSpeedNorth = 0 := rfl
      rw [he, hn, harg, mul_comm Real.pi 180, mul_div_assoc,
        div_self Real.pi_ne_zero, mul_one]
      norm_num
    rw [hdir]
  · norm_num

/-- Claim C2 (amended): on every cumulative hourly series, position i ≥ 1 is
replaced by the first difference against the previous hourly value divided
by 3600 whenever that difference is strictly positive; when the difference
is zero or negative the result is 0 for `GHI` and missing (NaN) for
`totalPrecipitation` (the code tests `diff > 0`, so a zero difference is
sent to the `else` branch — this matters for `totalPrecipitation`, see the
counterexample, while for `GHI` both readings give 0). -/
theorem transformation_pipe_deaccumulation (df : List RawRow) (i : ℕ)
    (h1 : 1 ≤ i) (h2 : i < df.length) :
    ((transformation_pipe df).getD i dTrans).GHI =
      (if 0 < (df.getD i dRaw).GHI - (df.getD (i - 1) dRaw).GHI
       then ((df.getD i dRaw).GHI - (df.getD (i - 1) dRaw).GHI) / 3600 else 0) ∧
    ((transformation_pipe df).getD i dTrans).totalPrecipitation =
      (if 0 < (df.getD i dRaw).totalPrecipitation - (df.getD (i - 1) dRaw).totalPrecipitation
       then some (((df.getD i dRaw).totalPrecipitation -
         (df.getD (i - 1) dRaw).totalPrecipitation) / 3600)
       else none) := by
  rw [transformation_pipe_getD df i h2]
  have hGHI := ghiDeacc_getD_succ (df.map fun r => r.GHI) i h1 (by simpa using h2)
  have hP := precipDeacc_getD_succ (df.map fun r => r.totalPrecipitation) i h1
    (by simpa using h2)
  rw [getD_map_of_lt _ df i h2 dRaw 0, getD_map_of_lt _ df (i - 1) (by omega) dRaw 0] at hGHI
  rw [getD_map_of_lt _ df i h2 dRaw 0, getD_map_of_lt _ df (i - 1) (by omega) dRaw 0] at hP
  constructor
  · show (ghiDeacc (df.map fun r => r.GHI)).getD i 0 = _
    exact hGHI
  · show (precipDeacc (df.map fun r => r.totalPrecipitation)).getD i none = _
    exact hP

/-- A raw row with constant cumulative precipitation 5, for the C2
counterexample and witness. -/
def cexPrecip : RawRow := { dRaw with totalPrecipitation := 5 }

/-- Claim C2 counterexample: on the constant cumulative series [5, 5] the
difference at position 1 is 0, which is non-negative, so the original claim
demands the value 0/3600 = some 0 for `totalPrecipitation`; the code's
`np.where(diff > 0, …, np.nan)` produces NaN instead. -/
theorem deaccumulation_counterexample :
    ((transformation_pipe [cexPrecip, cexPrecip]).getD 1 dTrans).totalPrecipitation = none ∧
    0 ≤ cexPrecip.totalPrecipitation - cexPrecip.totalPrecipitation ∧
    (none : Option ℝ) ≠
      some ((cexPrecip.totalPrecipitation - cexPrecip.totalPrecipitation) / 3600) := by
  refine ⟨?_, le_of_eq (sub_self _).symm, by simp⟩
  rw [transformation_pipe_getD [cexPrecip, cexPrecip] 1 (by norm_num)]
  show (precipDeacc ([cexPrecip, cexPrecip].map fun r => r.totalPrecipitation)).getD 1 none = none
  rw [precipDeacc_getD_succ _ 1 (by norm_num) (by norm_num)]
  have hz : ([cexPrecip, cexPrecip].map fun r => r.totalPrecipitation).getD 1 0 -
      ([cexPrecip, cexPrecip].map fun r => r.totalPrecipitation).getD 0 0 = 0 := by
    show cexPrecip.totalPrecipitation - cexPrecip.totalPrecipitation = 0
    exact sub_self _
  rw [hz, if_neg (lt_irrefl 0)]

/-- A second raw row with cumulative precipitation 8 and cumulative
radiation 7200, for the C2 witness. -/
def wPrecip2 : RawRow := { dRaw with totalPrecipitation := 8, GHI := 7200 }

/-- Claim C2 witness: on the concrete frame [cexPrecip, wPrecip2] the
strictly positive differences at position 1 (GHI 7200, precipitation 3) are
divided by 3600. -/
theorem transformation_pipe_deaccumulation_witness :
    ((transformation_pipe [cexPrecip, wPrecip2]).getD 1 dTrans).GHI = 2 ∧
    ((transformation_pipe [cexPrecip, wPrecip2]).getD 1 dTrans).totalPrecipitation =
      some ((3 : ℝ) / 3600) := by
  have h := transformation_pipe_deaccumulation [cexPrecip, wPrecip2] 1 (by norm_num)
    (by norm_num)
  constructor
  · rw [h.1]
    have hv : ([cexPrecip, wPrecip2].getD 1 dRaw).GHI -
        ([cexPrecip, wPrecip2].getD 0 dRaw).GHI = 7200 := by
      show (7200 : ℝ) - 0 = 7200
      norm_num
    rw [hv, if_pos (by norm_num)]
    norm_num
  · rw [h.2]
    have hv : ([cexPrecip, wPrecip2].getD 1 dRaw).totalPrecipitation -
        ([cexPrecip, wPrecip2].getD 0 dRaw).totalPrecipitation = 3 := by
      show (8 : ℝ) - 5 = 3
      norm_num
    rw [hv, if_pos (by norm_num)]

/-- Claim C10: `shift(arr, num)` with `num > 0` yields `fill_value` at
positions `0 … num−1` and `arr[i − num]` at positions `num ≤ i < len(arr)`;
consequently the first row of every frame passed through
`transformation_pipe` has no previous hourly value, so its `GHI` is 0 and
its `totalPrecipitation` is missing, whatever the raw cumulative values. -/
theorem shift_spec_and_first_row {α : Type} (arr : List α) (num : Int) (fill d : α)
    (hnum : 0 < num) (i : ℕ) (hi : i < arr.length)
    (df : List RawRow) (hdf : df ≠ []) :
    (i < num.toNat → (shift arr num fill).getD i d = fill) ∧
    (num.toNat ≤ i → (shift arr num fill).getD i d = arr.getD (i - num.toNat) d) ∧
    ((transformation_pipe df).getD 0 dTrans).GHI = 0 ∧
    ((transformation_pipe df).getD 0 dTrans).totalPrecipitation = none := by
  have hlen : 0 < df.length := List.length_pos.mpr hdf
  refine ⟨?_, ?_, ?_, ?_⟩
  · intro hlt
    rw [List.getD_eq_getElem?_getD, shift_getElem?_lt arr num fill hnum i hi hlt]
    rfl
  · intro hge
    rw [List.getD_eq_getElem?_getD, shift_getElem?_ge arr num fill hnum i hi hge,
      List.getD_eq_getElem?_getD]
  · rw [transformation_pipe_getD df 0 hlen]
    show (ghiDeacc (df.map fun r => r.GHI)).getD 0 0 = 0
    exact ghiDeacc_getD_zero _ (by simpa using hlen)
  · rw [transformation_pipe_getD df 0 hlen]
    show (precipDeacc (df.map fun r => r.totalPrecipitation)).getD 0 none = none
    exact precipDeacc_getD_zero _ (by simpa using hlen)

/-- Claim C10 witness: shifting [10, 20] by one puts 10 at position 1, and on
a one-row frame the de-accumulated first row is (GHI 0, precipitation NaN). -/
theorem shift_spec_witness :
    (shift [(10 : ℚ), 20] 1 0).getD 1 0 = 10 ∧
    ((transformation_pipe [dRaw]).getD 0 dTrans).GHI = 0 ∧
    ((transformation_pipe [dRaw]).getD 0 dTrans).totalPrecipitation = none := by
  have h := shift_spec_and_first_row [(10 : ℚ), 20] 1 0 0 (by norm_num) 1 (by norm_num)
    [dRaw] (by simp)
  refine ⟨?_, h.2.2.1, h.2.2.2⟩
  rw [h.2.1 (by norm_num)]
  rfl

/-- File-system outcome of one `query_from_grib` loop iteration, restricted
to the handling of the temporary GRIB index file `{fn}.{hash}.idx`:
`cfgrib.open_datasets(fn, backend_kwargs={indexpath: idx})` runs first
(`openOk` says whether it returns normally, `createsIdx` whether its index
file was written before a failure; on success the index is always written),
then `os.remove(idx)` executes — but only on the success path, since the
two statements stand in straight line with no `try/finally` around them.
The result is the final list of on-disk files, `Except.error` when the
exception propagates. -/
def processGribFile (openOk createsIdx : Bool) (files : List String) (idx : String) :
    Except (List String) (List String) :=
  if openOk then Except.ok ((idx :: files).erase idx)
  else Except.error (if createsIdx then idx :: files else files)

/-- Claim C9 (amended): the temporary index file is deleted immediately
after a successful parse, but the deletion is not guaranteed on the error
path: when `open_datasets` raises after writing the index file, `os.remove`
is never reached and the index file is left behind. -/
theorem processGribFile_cleanup (createsIdx : Bool) (files : List String) (idx : String)
    (hfresh : idx ∉ files) :
    (∃ fs, processGribFile true createsIdx files idx = Except.ok fs ∧ idx ∉ fs) ∧
    (createsIdx = true →
      ∃ fs, processGribFile false createsIdx files idx = Except.error fs ∧ idx ∈ fs) := by
  constructor
  · refine ⟨files, ?_, hfresh⟩
    unfold processGribFile
    rw [if_pos rfl, List.erase_cons_head]
  · intro hc
    subst hc
    exact ⟨idx :: files, rfl, List.mem_cons_self _ _⟩

/-- Claim C9 witness: a concrete run of both paths. -/
theorem processGribFile_cleanup_witness :
    (∃ fs, processGribFile true true [] "a.grib.7.idx" = Except.ok fs ∧
      "a.grib.7.idx" ∉ fs) ∧
    (∃ fs, processGribFile false true [] "a.grib.7.idx" = Except.error fs ∧
      "a.grib.7.idx" ∈ fs) :=
  ⟨(processGribFile_cleanup true [] "a.grib.7.idx" (by simp)).1,
   (processGribFile_cleanup true [] "a.grib.7.idx" (by simp)).2 rfl⟩

/-- Claim C9 counterexample: when `open_datasets` raises after writing its
index file, the deletion never happens — the index file is still on disk on
the error path, contradicting guaranteed deletion on every execution path. -/
theorem queryFromGrib_index_counterexample :
    processGribFile false true [] "f.grib.42.idx" = Except.error ["f.grib.42.idx"] ∧
    "f.grib.42.idx" ∈ ["f.grib.42.idx"] :=
  ⟨rfl, List.mem_singleton.mpr rfl⟩

end Era5
